import Mathlib

/-!
Shallow embedding of the user-reconciliation management command
(`edx_django_utils/admin/manage_users_by.py`).

The command idempotently creates or removes Django users, sets or unsets
permission bits, and associates groups by name, all inside one atomic
transaction per identity.  The Django framework collaborators (the auth
model, the hashers module, the group directory, the optional `UserProfile`
model) are modelled as an explicit environment and an explicit database
value; the command body is translated statement by statement into a pure
function returning `Except String Trace`, where a `Trace` carries the
post-transaction database together with the list of attribute writes the
call performed.
-/

namespace ManageUsers

/-- Propositional equality on `Except` results is decidable once it is on
both components; needed to settle concrete runs by `decide`. -/
instance {ε α : Type} [DecidableEq ε] [DecidableEq α] :
    DecidableEq (Except ε α) := fun a b =>
  match a, b with
  | .error x, .error y =>
    if h : x = y then .isTrue (by rw [h]) else .isFalse (by simp [h])
  | .error _, .ok _ => .isFalse (fun h => Except.noConfusion h)
  | .ok _, .error _ => .isFalse (fun h => Except.noConfusion h)
  | .ok x, .ok y =>
    if h : x = y then .isTrue (by rw [h]) else .isFalse (by simp [h])

/-- A Django password field value.  `hashed raw` is the result of
`user.set_password(raw)` (a fresh salted hash of `raw`, always usable);
`stored h` is a directly assigned encoded hash string; `unusable` is the
result of `user.set_unusable_password()` (an `!`-prefixed marker). -/
inductive Password where
  | hashed (raw : String)
  | stored (h : String)
  | unusable
deriving DecidableEq, Repr

/-- Django's `is_password_usable(encoded)`: an encoded string is usable
unless it carries the unusable-password marker, i.e. unless it starts with
the `!` character. -/
def is_password_usable (encoded : String) : Bool :=
  match encoded.data with
  | '!' :: _ => false
  | _ => true

/-- Django's `user.has_usable_password()`, i.e. `is_password_usable` applied
to the stored password field. -/
def has_usable_password : Password → Bool
  | .hashed _ => true
  | .stored h => is_password_usable h
  | .unusable => false

/-- The framework environment the command reads: the credential-hash
recognizer (`identify_hasher` succeeding against the configured
`PASSWORD_HASHERS`), whether the optional `UserProfile` model imported, and
the directory of existing group names. -/
structure Env where
  validDjangoHash : String → Bool
  userProfileModule : Bool
  groupDirectory : List String

/-- `is_valid_django_hash(encoded)` from the source: true iff
`identify_hasher(encoded)` does not raise, i.e. the configured hasher
recognizes the encoded string. -/
def is_valid_django_hash (env : Env) (encoded : String) : Bool :=
  env.validDjangoHash encoded

/-- One persisted user row: the auth-model attributes the command touches. -/
structure User where
  username : String
  email : String
  is_staff : Bool
  is_superuser : Bool
  password : Password
  groups : List String
deriving DecidableEq, Repr

/-- The persistent state the command reads and writes: the user table keyed
by username, and the set of usernames owning a `UserProfile` row. -/
structure DB where
  users : List (String × User)
  profiles : List String
deriving DecidableEq, Repr

/-- `get_user_model().objects.get(username=username)`, as an association-list
lookup. -/
def getUser (db : DB) (username : String) : Option User :=
  db.users.lookup username

/-- Persisting a changed row for an existing username (`user.save()`). -/
def putUser (db : DB) (username : String) (u : User) : DB :=
  { db with users := db.users.map (fun p => if p.1 = username then (p.1, u) else p) }

/-- Inserting the row `get_or_create` makes on a miss. -/
def createUser (db : DB) (u : User) : DB :=
  { db with users := (u.username, u) :: db.users }

/-- `user.delete()`: removes the user row and, by cascade, its profile row. -/
def deleteUser (db : DB) (username : String) : DB :=
  { users := db.users.filter (fun p => p.1 != username),
    profiles := db.profiles.filter (fun n => n != username) }

/-- The `CommandError` message raised on an email mismatch, naming the
stored row's username. -/
def emailMismatchError (username : String) : String :=
  "Skipping user \"" ++ username ++ "\" because the specified and existing email addresses do not match."

/-- The `CommandError` message raised on an invalid initial password hash. -/
def invalidHashError (username : String) : String :=
  "The password hash provided for user " ++ username ++ " is invalid."

/-- Python's `str.lower()` as used on the email strings: a character-wise
lowercase map. -/
def strLower (s : String) : String :=
  ⟨s.data.map Char.toLower⟩

/-- `_check_email_match(user, email)`: raise `CommandError` when the stored
and requested email addresses differ case-insensitively. -/
def check_email_match (user : User) (email : String) : Except String Unit :=
  if strLower user.email ≠ strLower email then
    .error (emailMismatchError user.username)
  else
    .ok ()

/-- `_maybe_update(user, attribute, new_value)`: the resulting attribute
value paired with whether a write was performed (only when the new value
differs from the old one). -/
def maybe_update {α : Type} [DecidableEq α] (old new : α) : α × Bool :=
  if new ≠ old then (new, true) else (old, false)

/-- Python truthiness of the optional `initial_password_hash` argument:
`None` and the empty string are falsy. -/
def truthy : Option String → Bool
  | some s => s ≠ ""
  | none => false

/-- Python set equality on the membership lists (used to decide whether
`user.groups.set(new_groups)` changes the membership set). -/
def eqSet (a b : List String) : Bool :=
  a.all (b.contains ·) && b.all (a.contains ·)

/-- The group-resolution loop: each requested name is looked up with
`Group.objects.get(name=group_name)` and names raising `Group.DoesNotExist`
are silently skipped, so exactly the names present in the directory
survive. -/
def resolveGroups (env : Env) (groups : List String) : List String :=
  groups.filter (env.groupDirectory.contains ·)

/-- `_handle_remove(username, email)`: a missing user is a no-op; an email
mismatch raises before any mutation; otherwise the user row (and by cascade
its profile) is deleted. -/
def handle_remove (db : DB) (username email : String) :
    Except String (DB × List String) :=
  match getUser db username with
  | none => .ok (db, [])
  | some user =>
    match check_email_match user email with
    | .error e => .error e
    | .ok _ => .ok (deleteUser db username, ["delete"])

/-- The `if created:` password branch of `update_user`: a truthy
`initial_password_hash` must pass `is_password_usable` and
`is_valid_django_hash` and is then assigned directly; otherwise
`user.set_password('dummypassword')` runs. -/
def createdPasswordStep (env : Env) (username : String)
    (initial_password_hash : Option String) (user : User) :
    Except String (User × List String) :=
  if truthy initial_password_hash then
    let h := initial_password_hash.getD ""
    if !(is_password_usable h && is_valid_django_hash env h) then
      .error (invalidHashError username)
    else
      .ok ({ user with password := .stored h }, ["password"])
  else
    .ok ({ user with password := .hashed "dummypassword" }, ["password"])

/-- The post-transaction database together with the attribute writes the
call performed. -/
structure Trace where
  db : DB
  writes : List String
deriving DecidableEq, Repr

/-- The shared tail of `update_user` after the created / existing branch:
`_maybe_update` on `is_staff` and `is_superuser`, the conditional
`set_unusable_password`, the profile existence check, group-name
resolution (unknown names silently dropped), `user.groups.set(new_groups)`
and the final `user.save()`. -/
def commonSteps (env : Env) (db : DB) (username : String)
    (is_staff is_superuser : Bool) (groups : List String)
    (unusable_password : Bool) (user1 : User) (w0 : List String)
    (created : Bool) : Trace :=
  let staffPair := maybe_update user1.is_staff is_staff
  let user2 := { user1 with is_staff := staffPair.1 }
  let supPair := maybe_update user2.is_superuser is_superuser
  let user3 := { user2 with is_superuser := supPair.1 }
  let wPw := unusable_password && has_usable_password user3.password
  let user4 := if wPw then { user3 with password := .unusable } else user3
  let wProf := !(db.profiles.contains username)
  let profiles2 := if wProf then username :: db.profiles else db.profiles
  let new_groups := resolveGroups env groups
  let wGroups := !eqSet new_groups user4.groups
  let user5 := { user4 with groups := new_groups }
  let db2 :=
    if created then { createUser db user5 with profiles := profiles2 }
    else { putUser db username user5 with profiles := profiles2 }
  ⟨db2,
    w0 ++ (if staffPair.2 then ["is_staff"] else [])
       ++ (if supPair.2 then ["is_superuser"] else [])
       ++ (if wPw then ["password"] else [])
       ++ (if wProf then ["profile"] else [])
       ++ (if wGroups then ["groups"] else [])⟩

/-- `update_user(username, email, is_remove, is_staff, is_superuser, groups,
unusable_password, initial_password_hash)`, the `@transaction.atomic`
command body.  A `.error` result is a raised `CommandError`; the
transaction semantics (rollback on error) lives in `run_update`. -/
def update_user (env : Env) (db : DB) (username email : String)
    (is_remove is_staff is_superuser : Bool) (groups : List String)
    (unusable_password : Bool) (initial_password_hash : Option String) :
    Except String Trace :=
  if !env.userProfileModule then
    .ok ⟨db, []⟩
  else if is_remove then
    match handle_remove db username email with
    | .error e => .error e
    | .ok (db2, ws) => .ok ⟨db2, ws⟩
  else
    match getUser db username with
    | none =>
      let user0 : User :=
        { username := username, email := email, is_staff := false,
          is_superuser := false, password := .stored "", groups := [] }
      match createdPasswordStep env username initial_password_hash user0 with
      | .error e => .error e
      | .ok (user1, w1) =>
        .ok (commonSteps env db username is_staff is_superuser groups
               unusable_password user1 w1 true)
    | some user0 =>
      match check_email_match user0 email with
      | .error e => .error e
      | .ok _ =>
        .ok (commonSteps env db username is_staff is_superuser groups
               unusable_password user0 [] false)

/-- The observable outcome of one `@transaction.atomic` invocation: on
success the new database commits; a raised error rolls every write back,
leaving the pre-call database. -/
def run_update (env : Env) (db : DB) (username email : String)
    (is_remove is_staff is_superuser : Bool) (groups : List String)
    (unusable_password : Bool) (initial_password_hash : Option String) :
    DB × Option String :=
  match update_user env db username email is_remove is_staff is_superuser
      groups unusable_password initial_password_hash with
  | .ok t => (t.db, none)
  | .error e => (db, some e)

/-- A concrete environment for sanity checks and witnesses: one recognized
hash string, the profile model present, two existing groups. -/
def envW : Env :=
  { validDjangoHash := fun s => s == "pbkdf2_sha256$260000$salt$digest",
    userProfileModule := true,
    groupDirectory := ["staff-group", "B", "C"] }

/-- The row value `commonSteps` persists: desired flags written through, the
password conditionally made unusable, the membership replaced by the
resolved group set; username and email untouched. -/
def finalUser (env : Env) (is_staff is_superuser unusable_password : Bool)
    (groups : List String) (u : User) : User :=
  { u with is_staff := is_staff, is_superuser := is_superuser,
           password := if unusable_password && has_usable_password u.password
                       then .unusable else u.password,
           groups := resolveGroups env groups }

/-- An environment with the `UserProfile` model missing. -/
def envNoProfile : Env :=
  { validDjangoHash := fun _ => false,
    userProfileModule := false,
    groupDirectory := [] }

/-- A stored row for witnesses: usable recognized hash, two groups held. -/
def aliceUser : User :=
  ⟨"alice", "a@x.com", false, false,
    .stored "pbkdf2_sha256$260000$salt$digest", ["A", "B"]⟩

/-- A one-row database for witnesses. -/
def dbW : DB := ⟨[("alice", aliceUser)], ["alice"]⟩

/-- Expected trace of the C4 witness first run. -/
def t1W : Trace :=
  ⟨⟨[("alice", ⟨"alice", "a@x.com", true, false,
       .hashed "dummypassword", ["B"]⟩)], ["alice"]⟩,
   ["password", "is_staff", "profile", "groups"]⟩

/-- Expected trace of the C5 witness run: oldGroups = [A, B], desired
[B, C, Z] with Z unknown, membership becomes exactly [B, C]. -/
def t5W : Trace :=
  ⟨⟨[("alice", ⟨"alice", "a@x.com", false, false,
       .stored "pbkdf2_sha256$260000$salt$digest", ["B", "C"]⟩)], ["alice"]⟩,
   ["groups"]⟩

/-- Expected trace of the C7 witness run (email differs only in case). -/
def t7W : Trace :=
  ⟨⟨[("alice", ⟨"alice", "a@x.com", false, false,
       .stored "pbkdf2_sha256$260000$salt$digest", []⟩)], ["alice"]⟩,
   ["groups"]⟩

/-- Expected trace of the C8 witness run: the usable credential is marked
unusable. -/
def t8W : Trace :=
  ⟨⟨[("alice", ⟨"alice", "a@x.com", false, false, .unusable, []⟩)],
     ["alice"]⟩,
   ["password", "groups"]⟩

/-- Expected trace of the C10 witness run: an existing account, a supplied
(ignored) initial password hash, password untouched. -/
def t10W : Trace :=
  ⟨⟨[("alice", ⟨"alice", "a@x.com", false, false,
       .stored "pbkdf2_sha256$260000$salt$digest", []⟩)], ["alice"]⟩,
   ["groups"]⟩

/-- Expected trace of the C2 witness run: a fresh account with no supplied
hash gets the hash of the constant string. -/
def t2W : Trace :=
  ⟨⟨[("bob", ⟨"bob", "b@x.com", false, false,
       .hashed "dummypassword", []⟩)], ["bob"]⟩,
   ["password", "profile"]⟩

/-- End-to-end sanity run: on an empty directory, a create request makes
the account with the fallback password, the staff bit, the resolved group
and a profile row. -/
theorem end_to_end_creation :
    update_user envW ⟨[], []⟩ "alice" "a@x.com" false true false
      ["staff-group"] false none =
    .ok ⟨⟨[("alice", ⟨"alice", "a@x.com", true, false,
              .hashed "dummypassword", ["staff-group"]⟩)], ["alice"]⟩,
         ["password", "is_staff", "profile", "groups"]⟩ := by decide


theorem maybe_update_fst {α : Type} [DecidableEq α] (old new : α) :
    (maybe_update old new).1 = new := by
  by_cases h : new = old <;> simp [maybe_update, h]

/-- Closed form of the shared tail of `update_user`. -/
theorem commonSteps_eq (env : Env) (db : DB) (username : String)
    (is_staff is_superuser : Bool) (groups : List String)
    (unusable_password : Bool) (user1 : User) (w0 : List String)
    (created : Bool) :
    commonSteps env db username is_staff is_superuser groups
        unusable_password user1 w0 created =
      ⟨{ users :=
           if created then
             (user1.username,
               finalUser env is_staff is_superuser unusable_password groups user1)
               :: db.users
           else
             db.users.map (fun p =>
               if p.1 = username then
                 (p.1, finalUser env is_staff is_superuser unusable_password groups user1)
               else p),
         profiles :=
           if !(db.profiles.contains username) then username :: db.profiles
           else db.profiles },
       w0 ++ (if is_staff ≠ user1.is_staff then ["is_staff"] else [])
          ++ (if is_superuser ≠ user1.is_superuser then ["is_superuser"] else [])
          ++ (if unusable_password && has_usable_password user1.password
              then ["password"] else [])
          ++ (if !(db.profiles.contains username) then ["profile"] else [])
          ++ (if !eqSet (resolveGroups env groups) user1.groups
              then ["groups"] else [])⟩ := by
  cases created <;>
  cases h3 : unusable_password && has_usable_password user1.password <;>
  by_cases h4 : username ∈ db.profiles <;>
  cases h5 : eqSet (resolveGroups env groups) user1.groups <;>
  by_cases h1 : is_staff = user1.is_staff <;>
  by_cases h2 : is_superuser = user1.is_superuser <;>
  simp [commonSteps, maybe_update, finalUser, createUser, putUser, h1, h2, h3, h4, h5]

/-- A missing `UserProfile` model short-circuits the whole command into a
no-op success. -/
theorem update_user_module_false (env : Env) (db : DB) (username email : String)
    (is_remove is_staff is_superuser : Bool) (groups : List String)
    (unusable_password : Bool) (initial_password_hash : Option String)
    (hmod : env.userProfileModule = false) :
    update_user env db username email is_remove is_staff is_superuser groups
        unusable_password initial_password_hash = .ok ⟨db, []⟩ := by
  simp [update_user, hmod]

theorem update_user_existing_ok (env : Env) (db : DB) (username email : String)
    (is_staff is_superuser : Bool) (groups : List String)
    (unusable_password : Bool) (initial_password_hash : Option String)
    (u0 : User) (hmod : env.userProfileModule = true)
    (hfound : getUser db username = some u0)
    (hmail : strLower u0.email = strLower email) :
    update_user env db username email false is_staff is_superuser groups
        unusable_password initial_password_hash =
      .ok (commonSteps env db username is_staff is_superuser groups
             unusable_password u0 [] false) := by
  simp [update_user, check_email_match, hmod, hfound, hmail]

theorem update_user_existing_mismatch (env : Env) (db : DB) (username email : String)
    (is_staff is_superuser : Bool) (groups : List String)
    (unusable_password : Bool) (initial_password_hash : Option String)
    (u0 : User) (hmod : env.userProfileModule = true)
    (hfound : getUser db username = some u0)
    (hmis : ¬ strLower u0.email = strLower email) :
    update_user env db username email false is_staff is_superuser groups
        unusable_password initial_password_hash =
      .error (emailMismatchError u0.username) := by
  simp [update_user, check_email_match, hmod, hfound, hmis]

theorem update_user_created_falsy (env : Env) (db : DB) (username email : String)
    (is_staff is_superuser : Bool) (groups : List String)
    (unusable_password : Bool) (initial_password_hash : Option String)
    (hmod : env.userProfileModule = true)
    (hnone : getUser db username = none)
    (hf : truthy initial_password_hash = false) :
    update_user env db username email false is_staff is_superuser groups
        unusable_password initial_password_hash =
      .ok (commonSteps env db username is_staff is_superuser groups
             unusable_password
             ⟨username, email, false, false, .hashed "dummypassword", []⟩
             ["password"] true) := by
  simp [update_user, createdPasswordStep, hmod, hnone, hf]

theorem update_user_created_valid (env : Env) (db : DB) (username email : String)
    (is_staff is_superuser : Bool) (groups : List String)
    (unusable_password : Bool) (initial_password_hash : Option String)
    (hmod : env.userProfileModule = true)
    (hnone : getUser db username = none)
    (ht : truthy initial_password_hash = true)
    (hv : (is_password_usable (initial_password_hash.getD "") &&
           is_valid_django_hash env (initial_password_hash.getD "")) = true) :
    update_user env db username email false is_staff is_superuser groups
        unusable_password initial_password_hash =
      .ok (commonSteps env db username is_staff is_superuser groups
             unusable_password
             ⟨username, email, false, false,
               .stored (initial_password_hash.getD ""), []⟩
             ["password"] true) := by
  simp [update_user, createdPasswordStep, hmod, hnone, ht, hv]

theorem update_user_created_invalid (env : Env) (db : DB) (username email : String)
    (is_staff is_superuser : Bool) (groups : List String)
    (unusable_password : Bool) (initial_password_hash : Option String)
    (hmod : env.userProfileModule = true)
    (hnone : getUser db username = none)
    (ht : truthy initial_password_hash = true)
    (hv : (is_password_usable (initial_password_hash.getD "") &&
           is_valid_django_hash env (initial_password_hash.getD "")) = false) :
    update_user env db username email false is_staff is_superuser groups
        unusable_password initial_password_hash =
      .error (invalidHashError username) := by
  simp [update_user, createdPasswordStep, hmod, hnone, ht, hv]

theorem update_user_remove_missing (env : Env) (db : DB) (username email : String)
    (is_staff is_superuser : Bool) (groups : List String)
    (unusable_password : Bool) (initial_password_hash : Option String)
    (hmod : env.userProfileModule = true)
    (hnone : getUser db username = none) :
    update_user env db username email true is_staff is_superuser groups
        unusable_password initial_password_hash = .ok ⟨db, []⟩ := by
  simp [update_user, handle_remove, hmod, hnone]

theorem update_user_remove_mismatch (env : Env) (db : DB) (username email : String)
    (is_staff is_superuser : Bool) (groups : List String)
    (unusable_password : Bool) (initial_password_hash : Option String)
    (u0 : User) (hmod : env.userProfileModule = true)
    (hfound : getUser db username = some u0)
    (hmis : ¬ strLower u0.email = strLower email) :
    update_user env db username email true is_staff is_superuser groups
        unusable_password initial_password_hash =
      .error (emailMismatchError u0.username) := by
  simp [update_user, handle_remove, check_email_match, hmod, hfound, hmis]

theorem update_user_remove_found (env : Env) (db : DB) (username email : String)
    (is_staff is_superuser : Bool) (groups : List String)
    (unusable_password : Bool) (initial_password_hash : Option String)
    (u0 : User) (hmod : env.userProfileModule = true)
    (hfound : getUser db username = some u0)
    (hmail : strLower u0.email = strLower email) :
    update_user env db username email true is_staff is_superuser groups
        unusable_password initial_password_hash =
      .ok ⟨deleteUser db username, ["delete"]⟩ := by
  simp [update_user, handle_remove, check_email_match, hmod, hfound, hmail]

theorem finalUser_username (env : Env) (s su up : Bool) (g : List String)
    (u : User) : (finalUser env s su up g u).username = u.username := rfl

theorem finalUser_email (env : Env) (s su up : Bool) (g : List String)
    (u : User) : (finalUser env s su up g u).email = u.email := rfl

theorem finalUser_is_staff (env : Env) (s su up : Bool) (g : List String)
    (u : User) : (finalUser env s su up g u).is_staff = s := rfl

theorem finalUser_is_superuser (env : Env) (s su up : Bool) (g : List String)
    (u : User) : (finalUser env s su up g u).is_superuser = su := rfl

theorem finalUser_groups (env : Env) (s su up : Bool) (g : List String)
    (u : User) : (finalUser env s su up g u).groups = resolveGroups env g := rfl

/-- Once the shared tail ran, a second application of the desired state
changes nothing: every attribute already has its target value. -/
theorem finalUser_idem (env : Env) (s su up : Bool) (g : List String)
    (u : User) :
    finalUser env s su up g (finalUser env s su up g u) =
      finalUser env s su up g u := by
  cases h : up && has_usable_password u.password <;>
    simp [finalUser, h, has_usable_password] <;>
    cases hu : up <;> simp_all [has_usable_password]

/-- After the shared tail, the conditional `set_unusable_password` write
can never fire again. -/
theorem finalUser_pw_stable (env : Env) (s su up : Bool) (g : List String)
    (u : User) :
    (up && has_usable_password (finalUser env s su up g u).password) = false := by
  cases hu : up <;> cases hp : has_usable_password u.password <;>
    simp_all [finalUser, has_usable_password]

theorem eqSet_refl (l : List String) : eqSet l l = true := by
  simp [eqSet, List.all_eq_true]

theorem lookup_cons_self (k : String) (v : User) (l : List (String × User)) :
    ((k, v) :: l).lookup k = some v := by
  simp [List.lookup]

/-- Rewriting the stored row under a key finds exactly the new row on the
next lookup. -/
theorem lookup_map_replace (l : List (String × User)) (k : String)
    (u v : User) (h : l.lookup k = some v) :
    (l.map (fun p => if p.1 = k then (p.1, u) else p)).lookup k = some u := by
  induction l with
  | nil => simp [List.lookup] at h
  | cons p tl ih =>
    simp only [List.map]
    by_cases hk : p.1 = k
    · subst hk
      rw [if_pos rfl]
      simp [List.lookup]
    · rw [if_neg hk]
      have hbeq : (k == p.1) = false :=
        beq_eq_false_iff_ne.mpr (fun hh => hk hh.symm)
      simp only [List.lookup, hbeq] at h ⊢
      exact ih h

/-- Replacing under a key that is absent leaves the table unchanged. -/
theorem map_replace_of_lookup_none (l : List (String × User)) (k : String)
    (u : User) (h : l.lookup k = none) :
    l.map (fun p => if p.1 = k then (p.1, u) else p) = l := by
  induction l with
  | nil => simp
  | cons p tl ih =>
    simp only [List.map]
    by_cases hk : p.1 = k
    · exfalso
      subst hk
      simp [List.lookup] at h
    · rw [if_neg hk]
      have hbeq : (k == p.1) = false :=
        beq_eq_false_iff_ne.mpr (fun hh => hk hh.symm)
      simp only [List.lookup, hbeq] at h
      rw [ih h]

/-- Replacing a row twice with the same value is the same as replacing it
once. -/
theorem map_replace_idem (l : List (String × User)) (k : String) (u : User) :
    ((l.map (fun p => if p.1 = k then (p.1, u) else p)).map
        (fun p => if p.1 = k then (p.1, u) else p)) =
      l.map (fun p => if p.1 = k then (p.1, u) else p) := by
  rw [List.map_map]
  apply List.map_congr_left
  intro p _
  by_cases hk : p.1 = k <;> simp [hk]

theorem commonSteps_profiles_contains (env : Env) (db : DB) (username : String)
    (is_staff is_superuser : Bool) (groups : List String)
    (unusable_password : Bool) (user1 : User) (w0 : List String)
    (created : Bool) :
    ((commonSteps env db username is_staff is_superuser groups
        unusable_password user1 w0 created).db.profiles.contains username) = true := by
  rw [commonSteps_eq]
  cases hc : db.profiles.contains username <;> simp_all

/-- Re-running the command right after it created a row is a no-op: the row
already carries the desired state. -/
theorem update_user_after_created (env : Env) (db : DB) (username email : String)
    (is_staff is_superuser : Bool) (groups : List String)
    (unusable_password : Bool) (initial_password_hash : Option String)
    (u1 : User) (profs : List String)
    (hmod : env.userProfileModule = true)
    (hnone : db.users.lookup username = none)
    (hname : u1.username = username)
    (hmail : u1.email = email)
    (hprof : profs.contains username = true) :
    update_user env
        ⟨(u1.username, finalUser env is_staff is_superuser unusable_password groups u1)
           :: db.users, profs⟩
        username email false is_staff is_superuser groups
        unusable_password initial_password_hash =
      .ok ⟨⟨(u1.username, finalUser env is_staff is_superuser unusable_password groups u1)
              :: db.users, profs⟩, []⟩ := by
  have hlook : getUser
      ⟨(u1.username, finalUser env is_staff is_superuser unusable_password groups u1)
         :: db.users, profs⟩ username =
      some (finalUser env is_staff is_superuser unusable_password groups u1) := by
    simp only [getUser]
    rw [hname]
    exact lookup_cons_self _ _ _
  rw [update_user_existing_ok env _ username email is_staff is_superuser groups
      unusable_password initial_password_hash _ hmod hlook
      (by rw [finalUser_email, hmail])]
  have hprofm : username ∈ profs := by simpa using hprof
  rw [commonSteps_eq, finalUser_idem]
  simp [hprofm, hname, finalUser_is_staff, finalUser_is_superuser,
    finalUser_groups, finalUser_pw_stable, eqSet_refl,
    map_replace_of_lookup_none _ _ _ hnone]

/-- Re-running the command right after it updated an existing row is a
no-op: the row already carries the desired state. -/
theorem update_user_after_existing (env : Env) (db : DB) (username email : String)
    (is_staff is_superuser : Bool) (groups : List String)
    (unusable_password : Bool) (initial_password_hash : Option String)
    (u0 : User) (profs : List String)
    (hmod : env.userProfileModule = true)
    (hfound : db.users.lookup username = some u0)
    (hmail : strLower u0.email = strLower email)
    (hprof : profs.contains username = true) :
    update_user env
        ⟨db.users.map (fun p =>
           if p.1 = username then
             (p.1, finalUser env is_staff is_superuser unusable_password groups u0)
           else p), profs⟩
        username email false is_staff is_superuser groups
        unusable_password initial_password_hash =
      .ok ⟨⟨db.users.map (fun p =>
              if p.1 = username then
                (p.1, finalUser env is_staff is_superuser unusable_password groups u0)
              else p), profs⟩, []⟩ := by
  have hlook : getUser
      ⟨db.users.map (fun p =>
         if p.1 = username then
           (p.1, finalUser env is_staff is_superuser unusable_password groups u0)
         else p), profs⟩ username =
      some (finalUser env is_staff is_superuser unusable_password groups u0) :=
    lookup_map_replace db.users username _ u0 hfound
  rw [update_user_existing_ok env _ username email is_staff is_superuser groups
      unusable_password initial_password_hash _ hmod hlook
      (by rw [finalUser_email]; exact hmail)]
  have hprofm : username ∈ profs := by simpa using hprof
  rw [commonSteps_eq, finalUser_idem]
  simp only [Except.ok.injEq, Trace.mk.injEq, DB.mk.injEq]
  refine ⟨⟨?_, ?_⟩, ?_⟩
  · simp only [map_replace_idem]
    simp
  · simp [hprofm]
  · simp [hprofm, finalUser_is_staff, finalUser_is_superuser, finalUser_groups,
      finalUser_pw_stable, eqSet_refl]

/-- C4: for every identity and desired state with removeFlag=false, running
reconcile twice in succession yields the same final account state as running
it once, and the second run performs zero attribute writes: isStaff,
isSuperuser, the password, and the group set are all unchanged by the
second run (empty write list). -/
theorem claim_C4_idempotent (env : Env) (db : DB) (username email : String)
    (is_staff is_superuser : Bool) (groups : List String)
    (unusable_password : Bool) (initial_password_hash : Option String)
    (t1 : Trace)
    (h1 : update_user env db username email false is_staff is_superuser groups
        unusable_password initial_password_hash = .ok t1) :
    update_user env t1.db username email false is_staff is_superuser groups
        unusable_password initial_password_hash = .ok ⟨t1.db, []⟩ := by
  cases hmod : env.userProfileModule
  case false =>
    rw [update_user_module_false env db username email false is_staff
        is_superuser groups unusable_password initial_password_hash hmod] at h1
    injection h1 with hh
    subst hh
    exact update_user_module_false _ _ _ _ _ _ _ _ _ _ hmod
  case true =>
    cases hfound : getUser db username
    case some u0 =>
      by_cases hmail : strLower u0.email = strLower email
      · rw [update_user_existing_ok env db username email is_staff is_superuser
            groups unusable_password initial_password_hash u0 hmod hfound hmail] at h1
        injection h1 with hh
        subst hh
        rw [commonSteps_eq]
        exact update_user_after_existing _ _ _ _ _ _ _ _ _ _ _ hmod hfound hmail
          (by cases hc : db.profiles.contains username <;> simp_all)
      · rw [update_user_existing_mismatch env db username email is_staff
            is_superuser groups unusable_password initial_password_hash u0
            hmod hfound hmail] at h1
        simp at h1
    case none =>
      cases htr : truthy initial_password_hash
      case false =>
        rw [update_user_created_falsy env db username email is_staff
            is_superuser groups unusable_password initial_password_hash
            hmod hfound htr] at h1
        injection h1 with hh
        subst hh
        rw [commonSteps_eq]
        exact update_user_after_created _ _ _ _ _ _ _ _ _ _ _ hmod hfound rfl rfl
          (by cases hc : db.profiles.contains username <;> simp_all)
      case true =>
        cases hval : is_password_usable (initial_password_hash.getD "") &&
            is_valid_django_hash env (initial_password_hash.getD "")
        case false =>
          rw [update_user_created_invalid env db username email is_staff
              is_superuser groups unusable_password initial_password_hash
              hmod hfound htr hval] at h1
          simp at h1
        case true =>
          rw [update_user_created_valid env db username email is_staff
              is_superuser groups unusable_password initial_password_hash
              hmod hfound htr hval] at h1
          injection h1 with hh
          subst hh
          rw [commonSteps_eq]
          exact update_user_after_created _ _ _ _ _ _ _ _ _ _ _ hmod hfound rfl rfl
            (by cases hc : db.profiles.contains username <;> simp_all)

theorem getUser_commonSteps_existing (env : Env) (db : DB) (username : String)
    (is_staff is_superuser : Bool) (groups : List String)
    (unusable_password : Bool) (u0 : User) (w0 : List String)
    (hfound : getUser db username = some u0) :
    getUser (commonSteps env db username is_staff is_superuser groups
        unusable_password u0 w0 false).db username =
      some (finalUser env is_staff is_superuser unusable_password groups u0) := by
  rw [commonSteps_eq]
  exact lookup_map_replace db.users username _ u0 hfound

theorem getUser_commonSteps_created (env : Env) (db : DB) (username : String)
    (is_staff is_superuser : Bool) (groups : List String)
    (unusable_password : Bool) (u1 : User) (w0 : List String)
    (hname : u1.username = username) :
    getUser (commonSteps env db username is_staff is_superuser groups
        unusable_password u1 w0 true).db username =
      some (finalUser env is_staff is_superuser unusable_password groups u1) := by
  rw [commonSteps_eq]
  show ((u1.username, finalUser env is_staff is_superuser unusable_password groups u1)
      :: db.users).lookup username = _
  rw [hname]
  exact lookup_cons_self _ _ _

theorem mem_resolveGroups (env : Env) (groups : List String) (name : String) :
    name ∈ resolveGroups env groups ↔
      name ∈ groups ∧ name ∈ env.groupDirectory := by
  simp [resolveGroups, List.mem_filter]

/-- C9: when the extended-profile capability (`UserProfile` module) is
absent, `update_user` returns without raising and performs no mutation at
all — a complete no-op with an empty write list — for every input,
including remove-mode requests, since the short-circuit precedes the remove
branch. -/
theorem claim_C9_missing_profile_module (env : Env) (db : DB)
    (username email : String) (is_remove is_staff is_superuser : Bool)
    (groups : List String) (unusable_password : Bool)
    (initial_password_hash : Option String)
    (hmod : env.userProfileModule = false) :
    update_user env db username email is_remove is_staff is_superuser groups
        unusable_password initial_password_hash = .ok ⟨db, []⟩ :=
  update_user_module_false env db username email is_remove is_staff
    is_superuser groups unusable_password initial_password_hash hmod

/-- C6: every invocation either commits all its updates (success, the new
database is the observable state) or, when an error is raised, commits none
of them: the observable state after a raised error is exactly the pre-call
database (the `@transaction.atomic` rollback modelled by `run_update`). -/
theorem claim_C6_atomicity (env : Env) (db : DB) (username email : String)
    (is_remove is_staff is_superuser : Bool) (groups : List String)
    (unusable_password : Bool) (initial_password_hash : Option String) :
    (∃ t, update_user env db username email is_remove is_staff is_superuser
        groups unusable_password initial_password_hash = .ok t ∧
      run_update env db username email is_remove is_staff is_superuser
        groups unusable_password initial_password_hash = (t.db, none)) ∨
    (∃ e, update_user env db username email is_remove is_staff is_superuser
        groups unusable_password initial_password_hash = .error e ∧
      run_update env db username email is_remove is_staff is_superuser
        groups unusable_password initial_password_hash = (db, some e)) := by
  cases h : update_user env db username email is_remove is_staff is_superuser
      groups unusable_password initial_password_hash with
  | ok t => exact Or.inl ⟨t, rfl, by simp [run_update, h]⟩
  | error e => exact Or.inr ⟨e, rfl, by simp [run_update, h]⟩

/-- C3: a reconcile request (removeFlag either value) on an existing account
whose desired email differs case-insensitively from the stored one fails
with the email-mismatch `CommandError` naming the username, and the stored
state is left completely unmodified (the rolled-back state equals the
pre-call database). -/
theorem claim_C3_email_mismatch (env : Env) (db : DB) (username email : String)
    (is_remove is_staff is_superuser : Bool) (groups : List String)
    (unusable_password : Bool) (initial_password_hash : Option String)
    (u0 : User) (hmod : env.userProfileModule = true)
    (hfound : getUser db username = some u0)
    (hname : u0.username = username)
    (hmis : ¬ strLower u0.email = strLower email) :
    update_user env db username email is_remove is_staff is_superuser groups
        unusable_password initial_password_hash =
      .error (emailMismatchError username) ∧
    run_update env db username email is_remove is_staff is_superuser groups
        unusable_password initial_password_hash =
      (db, some (emailMismatchError username)) := by
  have herr : update_user env db username email is_remove is_staff is_superuser
      groups unusable_password initial_password_hash =
      .error (emailMismatchError u0.username) := by
    cases is_remove
    · exact update_user_existing_mismatch env db username email is_staff
        is_superuser groups unusable_password initial_password_hash u0
        hmod hfound hmis
    · exact update_user_remove_mismatch env db username email is_staff
        is_superuser groups unusable_password initial_password_hash u0
        hmod hfound hmis
  rw [hname] at herr
  exact ⟨herr, by simp [run_update, herr]⟩

/-- C7: a successful non-remove reconcile on an existing account never
changes the stored email, even when the desired email differs only in
letter case from the stored spelling. -/
theorem claim_C7_email_preserved (env : Env) (db : DB) (username email : String)
    (is_staff is_superuser : Bool) (groups : List String)
    (unusable_password : Bool) (initial_password_hash : Option String)
    (u0 : User) (t : Trace)
    (hfound : getUser db username = some u0)
    (hok : update_user env db username email false is_staff is_superuser groups
        unusable_password initial_password_hash = .ok t) :
    ∃ u1, getUser t.db username = some u1 ∧ u1.email = u0.email := by
  cases hmod : env.userProfileModule
  case false =>
    rw [update_user_module_false env db username email false is_staff
        is_superuser groups unusable_password initial_password_hash hmod] at hok
    injection hok with hh
    subst hh
    exact ⟨u0, hfound, rfl⟩
  case true =>
    by_cases hmail : strLower u0.email = strLower email
    · rw [update_user_existing_ok env db username email is_staff is_superuser
          groups unusable_password initial_password_hash u0 hmod hfound hmail] at hok
      injection hok with hh
      subst hh
      exact ⟨finalUser env is_staff is_superuser unusable_password groups u0,
        getUser_commonSteps_existing env db username is_staff is_superuser
          groups unusable_password u0 [] hfound,
        finalUser_email env is_staff is_superuser unusable_password groups u0⟩
    · rw [update_user_existing_mismatch env db username email is_staff
          is_superuser groups unusable_password initial_password_hash u0
          hmod hfound hmail] at hok
      simp at hok

/-- C5: a successful non-remove reconcile leaves the account's group
membership equal to exactly the desired group names that resolve in the
group directory: unresolved names are dropped silently, previously held
groups outside the desired set are removed, newly desired resolved groups
are added. -/
theorem claim_C5_group_replacement (env : Env) (db : DB) (username email : String)
    (is_staff is_superuser : Bool) (groups : List String)
    (unusable_password : Bool) (initial_password_hash : Option String)
    (t : Trace) (hmod : env.userProfileModule = true)
    (hok : update_user env db username email false is_staff is_superuser groups
        unusable_password initial_password_hash = .ok t) :
    ∃ u, getUser t.db username = some u ∧
      u.groups = resolveGroups env groups ∧
      ∀ name, name ∈ u.groups ↔ (name ∈ groups ∧ name ∈ env.groupDirectory) := by
  cases hfound : getUser db username
  case some u0 =>
    by_cases hmail : strLower u0.email = strLower email
    · rw [update_user_existing_ok env db username email is_staff is_superuser
          groups unusable_password initial_password_hash u0 hmod hfound hmail] at hok
      injection hok with hh
      subst hh
      refine ⟨finalUser env is_staff is_superuser unusable_password groups u0,
        getUser_commonSteps_existing env db username is_staff is_superuser
          groups unusable_password u0 [] hfound,
        finalUser_groups env is_staff is_superuser unusable_password groups u0, ?_⟩
      intro name
      rw [finalUser_groups]
      exact mem_resolveGroups env groups name
    · rw [update_user_existing_mismatch env db username email is_staff
          is_superuser groups unusable_password initial_password_hash u0
          hmod hfound hmail] at hok
      simp at hok
  case none =>
    cases htr : truthy initial_password_hash
    case false =>
      rw [update_user_created_falsy env db username email is_staff is_superuser
          groups unusable_password initial_password_hash hmod hfound htr] at hok
      injection hok with hh
      subst hh
      refine ⟨finalUser env is_staff is_superuser unusable_password groups _,
        getUser_commonSteps_created env db username is_staff is_superuser
          groups unusable_password _ _ rfl,
        finalUser_groups env is_staff is_superuser unusable_password groups _, ?_⟩
      intro name
      rw [finalUser_groups]
      exact mem_resolveGroups env groups name
    case true =>
      cases hval : is_password_usable (initial_password_hash.getD "") &&
          is_valid_django_hash env (initial_password_hash.getD "")
      case false =>
        rw [update_user_created_invalid env db username email is_staff
            is_superuser groups unusable_password initial_password_hash
            hmod hfound htr hval] at hok
        simp at hok
      case true =>
        rw [update_user_created_valid env db username email is_staff
            is_superuser groups unusable_password initial_password_hash
            hmod hfound htr hval] at hok
        injection hok with hh
        subst hh
        refine ⟨finalUser env is_staff is_superuser unusable_password groups _,
          getUser_commonSteps_created env db username is_staff is_superuser
            groups unusable_password _ _ rfl,
          finalUser_groups env is_staff is_superuser unusable_password groups _, ?_⟩
        intro name
        rw [finalUser_groups]
        exact mem_resolveGroups env groups name

/-- C8: with unusablePassword=true on an existing account, a usable
credential is marked unusable (a password write occurs); an already
unusable credential is left untouched with no password write; and in either
case the credential ends unusable — nothing in the call makes it usable
again. -/
theorem claim_C8_unusable_one_way (env : Env) (db : DB) (username email : String)
    (is_staff is_superuser : Bool) (groups : List String)
    (initial_password_hash : Option String) (u0 : User) (t : Trace)
    (hmod : env.userProfileModule = true)
    (hfound : getUser db username = some u0)
    (hok : update_user env db username email false is_staff is_superuser groups
        true initial_password_hash = .ok t) :
    ∃ u1, getUser t.db username = some u1 ∧
      has_usable_password u1.password = false ∧
      (has_usable_password u0.password = true →
        u1.password = .unusable ∧ "password" ∈ t.writes) ∧
      (has_usable_password u0.password = false →
        u1.password = u0.password ∧ "password" ∉ t.writes) := by
  by_cases hmail : strLower u0.email = strLower email
  · rw [update_user_existing_ok env db username email is_staff is_superuser
        groups true initial_password_hash u0 hmod hfound hmail] at hok
    injection hok with hh
    subst hh
    refine ⟨finalUser env is_staff is_superuser true groups u0,
      getUser_commonSteps_existing env db username is_staff is_superuser
        groups true u0 [] hfound, ?_, ?_, ?_⟩
    · cases hp : has_usable_password u0.password
      · simp [finalUser, hp]
      · have hpw : (finalUser env is_staff is_superuser true groups u0).password
            = .unusable := by simp [finalUser, hp]
        rw [hpw]
        rfl
    · intro hp
      refine ⟨by simp [finalUser, hp], ?_⟩
      rw [commonSteps_eq]
      simp [hp]
    · intro hp
      refine ⟨by simp [finalUser, hp], ?_⟩
      rw [commonSteps_eq]
      simp [hp]
  · rw [update_user_existing_mismatch env db username email is_staff
        is_superuser groups true initial_password_hash u0 hmod hfound hmail] at hok
    simp at hok

/-- C10 (implicit): on a pre-existing account with removeFlag=false, the
stored password hash changes only when unusablePassword=true and the
current credential is usable (and then it becomes the unusable marker);
with unusablePassword=false it is untouched, and the initialPasswordHash
argument is ignored entirely (any value yields the same outcome). -/
theorem claim_C10_password_frame (env : Env) (db : DB) (username email : String)
    (is_staff is_superuser : Bool) (groups : List String)
    (unusable_password : Bool) (initial_password_hash : Option String)
    (u0 : User) (t : Trace)
    (hfound : getUser db username = some u0)
    (hok : update_user env db username email false is_staff is_superuser groups
        unusable_password initial_password_hash = .ok t) :
    ∃ u1, getUser t.db username = some u1 ∧
      (unusable_password = false → u1.password = u0.password) ∧
      (u1.password ≠ u0.password →
        unusable_password = true ∧ has_usable_password u0.password = true ∧
        u1.password = .unusable) ∧
      ∀ iph2, update_user env db username email false is_staff is_superuser
        groups unusable_password iph2 = .ok t := by
  cases hmod : env.userProfileModule
  case false =>
    rw [update_user_module_false env db username email false is_staff
        is_superuser groups unusable_password initial_password_hash hmod] at hok
    injection hok with hh
    subst hh
    exact ⟨u0, hfound, fun _ => rfl, fun hne => absurd rfl hne,
      fun iph2 => update_user_module_false env db username email false is_staff
        is_superuser groups unusable_password iph2 hmod⟩
  case true =>
    by_cases hmail : strLower u0.email = strLower email
    · rw [update_user_existing_ok env db username email is_staff is_superuser
          groups unusable_password initial_password_hash u0 hmod hfound hmail] at hok
      injection hok with hh
      subst hh
      refine ⟨finalUser env is_staff is_superuser unusable_password groups u0,
        getUser_commonSteps_existing env db username is_staff is_superuser
          groups unusable_password u0 [] hfound, ?_, ?_, ?_⟩
      · intro hup
        simp [finalUser, hup]
      · intro hne
        cases hup : unusable_password
        · exact absurd (by simp [finalUser, hup]) hne
        · cases hp : has_usable_password u0.password
          · exact absurd (by simp [finalUser, hup, hp]) hne
          · exact ⟨rfl, rfl, by simp [finalUser, hup, hp]⟩
      · intro iph2
        exact update_user_existing_ok env db username email is_staff
          is_superuser groups unusable_password iph2 u0 hmod hfound hmail
    · rw [update_user_existing_mismatch env db username email is_staff
          is_superuser groups unusable_password initial_password_hash u0
          hmod hfound hmail] at hok
      simp at hok

/-- C1 (as frozen) is refuted at this input: an empty-string
`initialPasswordHash` on first creation does NOT raise — Python truthiness
treats `''` as absent, so the account is created with the fallback
password. -/
theorem claim_C1_counterexample :
    update_user envW ⟨[], []⟩ "alice" "a@x.com" false false false [] false
        (some "") =
      .ok ⟨⟨[("alice", ⟨"alice", "a@x.com", false, false,
                .hashed "dummypassword", []⟩)], ["alice"]⟩,
           ["password", "profile"]⟩ := by
  decide

/-- C1 (amended): on first creation, a NON-EMPTY `initialPasswordHash` that
is unusable or malformed for the deployed hashing scheme fails with the
invalid-hash `CommandError` and the account is not created (the rolled-back
state equals the pre-call database); an empty string is instead treated as
if no hash were supplied. -/
theorem claim_C1_invalid_hash (env : Env) (db : DB) (username email : String)
    (is_staff is_superuser : Bool) (groups : List String)
    (unusable_password : Bool) (h : String)
    (hmod : env.userProfileModule = true)
    (hnone : getUser db username = none)
    (hne : h ≠ "")
    (hbad : (is_password_usable h && is_valid_django_hash env h) = false) :
    update_user env db username email false is_staff is_superuser groups
        unusable_password (some h) = .error (invalidHashError username) ∧
    run_update env db username email false is_staff is_superuser groups
        unusable_password (some h) = (db, some (invalidHashError username)) := by
  have ht : truthy (some h) = true := by simp [truthy, hne]
  have herr := update_user_created_invalid env db username email is_staff
    is_superuser groups unusable_password (some h) hmod hnone ht hbad
  exact ⟨herr, by simp [run_update, herr]⟩

/-- C2 (refuting the randomness half): on first creation with no (or empty)
`initialPasswordHash` and unusablePassword=false, the assigned credential is
the hash of the FIXED constant string `dummypassword` — usable, but fully
derivable by the caller, not a randomly generated unknown password. -/
theorem claim_C2_fixed_password (env : Env) (db : DB) (username email : String)
    (is_staff is_superuser : Bool) (groups : List String)
    (initial_password_hash : Option String) (t : Trace)
    (hmod : env.userProfileModule = true)
    (hnone : getUser db username = none)
    (hfalsy : truthy initial_password_hash = false)
    (hok : update_user env db username email false is_staff is_superuser groups
        false initial_password_hash = .ok t) :
    ∃ u, getUser t.db username = some u ∧
      u.password = .hashed "dummypassword" ∧
      has_usable_password u.password = true := by
  rw [update_user_created_falsy env db username email is_staff is_superuser
      groups false initial_password_hash hmod hnone hfalsy] at hok
  injection hok with hh
  subst hh
  refine ⟨finalUser env is_staff is_superuser false groups _,
    getUser_commonSteps_created env db username is_staff is_superuser
      groups false _ _ rfl, ?_, ?_⟩
  · simp [finalUser]
  · simp [finalUser, has_usable_password]





theorem claim_C4_idempotent_witness :
    update_user envW ⟨[], []⟩ "alice" "a@x.com" false true false ["B", "Z"]
        false none = .ok t1W ∧
    update_user envW t1W.db "alice" "a@x.com" false true false ["B", "Z"]
        false none = .ok ⟨t1W.db, []⟩ :=
  ⟨by decide,
   claim_C4_idempotent envW ⟨[], []⟩ "alice" "a@x.com" true false ["B", "Z"]
     false none t1W (by decide)⟩

theorem claim_C9_missing_profile_module_witness :
    envNoProfile.userProfileModule = false ∧
    update_user envNoProfile dbW "alice" "a@x.com" true true false [] false
        none = .ok ⟨dbW, []⟩ :=
  ⟨rfl,
   claim_C9_missing_profile_module envNoProfile dbW "alice" "a@x.com" true
     true false [] false none rfl⟩

theorem claim_C3_email_mismatch_witness :
    getUser dbW "alice" = some aliceUser ∧
    update_user envW dbW "alice" "other@x.com" false false false [] false
        none = .error (emailMismatchError "alice") ∧
    run_update envW dbW "alice" "other@x.com" false false false [] false
        none = (dbW, some (emailMismatchError "alice")) :=
  ⟨by decide,
   claim_C3_email_mismatch envW dbW "alice" "other@x.com" false false false
     [] false none aliceUser rfl (by decide) rfl (by decide)⟩


theorem claim_C5_group_replacement_witness :
    update_user envW dbW "alice" "a@x.com" false false false ["B", "C", "Z"]
        false none = .ok t5W ∧
    ∃ u, getUser t5W.db "alice" = some u ∧
      u.groups = resolveGroups envW ["B", "C", "Z"] ∧
      ∀ name, name ∈ u.groups ↔
        (name ∈ ["B", "C", "Z"] ∧ name ∈ envW.groupDirectory) :=
  ⟨by decide,
   claim_C5_group_replacement envW dbW "alice" "a@x.com" false false
     ["B", "C", "Z"] false none t5W rfl (by decide)⟩


theorem claim_C7_email_preserved_witness :
    getUser dbW "alice" = some aliceUser ∧
    update_user envW dbW "alice" "A@X.com" false false false [] false none =
      .ok t7W ∧
    ∃ u1, getUser t7W.db "alice" = some u1 ∧ u1.email = aliceUser.email :=
  ⟨by decide, by decide,
   claim_C7_email_preserved envW dbW "alice" "A@X.com" false false [] false
     none aliceUser t7W (by decide) (by decide)⟩


theorem claim_C8_unusable_one_way_witness :
    update_user envW dbW "alice" "a@x.com" false false false [] true none =
      .ok t8W ∧
    ∃ u1, getUser t8W.db "alice" = some u1 ∧
      has_usable_password u1.password = false ∧
      (has_usable_password aliceUser.password = true →
        u1.password = .unusable ∧ "password" ∈ t8W.writes) ∧
      (has_usable_password aliceUser.password = false →
        u1.password = aliceUser.password ∧ "password" ∉ t8W.writes) :=
  ⟨by decide,
   claim_C8_unusable_one_way envW dbW "alice" "a@x.com" false false [] none
     aliceUser t8W rfl (by decide) (by decide)⟩


theorem claim_C10_password_frame_witness :
    update_user envW dbW "alice" "a@x.com" false false false [] false
        (some "zzz") = .ok t10W ∧
    ∃ u1, getUser t10W.db "alice" = some u1 ∧
      (false = false → u1.password = aliceUser.password) ∧
      (u1.password ≠ aliceUser.password →
        false = true ∧ has_usable_password aliceUser.password = true ∧
        u1.password = .unusable) ∧
      ∀ iph2, update_user envW dbW "alice" "a@x.com" false false false []
        false iph2 = .ok t10W :=
  ⟨by decide,
   claim_C10_password_frame envW dbW "alice" "a@x.com" false false [] false
     (some "zzz") aliceUser t10W (by decide) (by decide)⟩

theorem claim_C1_invalid_hash_witness :
    envW.userProfileModule = true ∧
    getUser ⟨[], []⟩ "alice" = none ∧
    "plainpass" ≠ "" ∧
    (is_password_usable "plainpass" &&
      is_valid_django_hash envW "plainpass") = false ∧
    (update_user envW ⟨[], []⟩ "alice" "a@x.com" false false false [] false
        (some "plainpass") = .error (invalidHashError "alice") ∧
     run_update envW ⟨[], []⟩ "alice" "a@x.com" false false false [] false
        (some "plainpass") = (⟨[], []⟩, some (invalidHashError "alice"))) :=
  ⟨rfl, rfl, by decide, by decide,
   claim_C1_invalid_hash envW ⟨[], []⟩ "alice" "a@x.com" false false []
     false "plainpass" rfl rfl (by decide) (by decide)⟩


theorem claim_C2_fixed_password_witness :
    truthy none = false ∧
    update_user envW ⟨[], []⟩ "bob" "b@x.com" false false false [] false
        none = .ok t2W ∧
    ∃ u, getUser t2W.db "bob" = some u ∧
      u.password = .hashed "dummypassword" ∧
      has_usable_password u.password = true :=
  ⟨rfl, by decide,
   claim_C2_fixed_password envW ⟨[], []⟩ "bob" "b@x.com" false false [] none
     t2W rfl rfl rfl (by decide)⟩

end ManageUsers
